import Mathlib

set_option linter.unusedVariables false

/- Shallow embedding of the cold-outreach repository: the scraping, fallback,
   quality-scoring, retry, templating and mail-sending components, translated
   from the TypeScript sources.  JavaScript strings are modelled as Lean
   strings, JS number scores as rationals, thrown exceptions as Except values
   carrying the error message, and the host URL parser (the WHATWG URL
   constructor used via new URL) as an abstract environment. -/

/-! ## JS string primitives -/

/-- JS String.prototype.trim modelled on the character list. -/
def jsTrim (s : String) : String :=
  String.mk (((s.data.dropWhile Char.isWhitespace).reverse.dropWhile Char.isWhitespace).reverse)

/-- JS String.prototype.toLowerCase restricted to simple case mapping. -/
def jsToLower (s : String) : String :=
  String.mk (s.data.map Char.toLower)

/-- Occurrence test for a pattern inside a character list. -/
def hasSub (pat : List Char) (l : List Char) : Bool :=
  match l with
  | [] => pat.isEmpty
  | c :: rest => pat.isPrefixOf (c :: rest) || hasSub pat rest

/-- JS String.prototype.includes. -/
def strIncludes (s pat : String) : Bool :=
  hasSub pat.data s.data

/-- Replace the first occurrence of a pattern (JS String.replace with a
    string pattern). -/
def replaceFirstL (pat rep : List Char) : List Char → List Char
  | [] => []
  | c :: rest =>
    if pat.isPrefixOf (c :: rest) ∧ pat ≠ [] then
      rep ++ rest.drop (pat.length - 1)
    else
      c :: replaceFirstL pat rep rest

/-- Replace every occurrence of a pattern, left to right, non-overlapping
    (JS String.replace with a global regex over a literal pattern). -/
def replaceAllL (pat rep : List Char) : List Char → List Char
  | [] => []
  | c :: rest =>
    if pat.isPrefixOf (c :: rest) ∧ pat ≠ [] then
      rep ++ replaceAllL pat rep (rest.drop (pat.length - 1))
    else
      c :: replaceAllL pat rep rest
termination_by l => l.length
decreasing_by
  · simp only [List.length_drop, List.length_cons]
    omega
  · simp only [List.length_cons]
    omega

/-- String-level global replacement. -/
def jsReplaceAll (s pat rep : String) : String :=
  String.mk (replaceAllL pat.data rep.data s.data)

/-- String-level first-occurrence replacement. -/
def jsReplaceFirst (s pat rep : String) : String :=
  String.mk (replaceFirstL pat.data rep.data s.data)

theorem lengthDropWhileLe {α : Type} (p : α → Bool) (l : List α) :
    (l.dropWhile p).length ≤ l.length := by
  induction l with
  | nil => simp [List.dropWhile]
  | cons c rest ih =>
    rw [List.dropWhile]
    by_cases h : p c
    · simp only [h]
      simp only [List.length_cons]
      omega
    · simp [h]

/-- Strip HTML tags: drop every maximal segment from a given open character
    to the next close character, keeping an unmatched opener (the regex
    form used by the source over angle brackets). -/
def stripTagsL (l : List Char) : List Char :=
  match l with
  | [] => []
  | c :: rest =>
    if c = '<' ∧ rest.contains '>' then
      stripTagsL ((rest.dropWhile (fun d => d ≠ '>')).drop 1)
    else
      c :: stripTagsL rest
termination_by l.length
decreasing_by
  · have h1 : (rest.dropWhile (fun d => d ≠ '>')).length ≤ rest.length :=
      lengthDropWhileLe _ rest
    simp only [List.length_drop, List.length_cons]
    omega
  · simp only [List.length_cons]
    omega

/-- Collapse every maximal run of whitespace to a single space (the global
    whitespace regex replacement used by the source). -/
def collapseWsL (l : List Char) : List Char :=
  match l with
  | [] => []
  | c :: rest =>
    if c.isWhitespace then
      ' ' :: collapseWsL (rest.dropWhile Char.isWhitespace)
    else
      c :: collapseWsL rest
termination_by l.length
decreasing_by
  · have h1 : (rest.dropWhile Char.isWhitespace).length ≤ rest.length :=
      lengthDropWhileLe _ rest
    simp only [List.length_cons]
    omega
  · simp only [List.length_cons]
    omega

/-! ## Host environment

The repository delegates URL parsing to the runtime URL constructor
(new URL).  We model that external parser abstractly: urlScheme gives the
parsed protocol (with trailing colon, as in JS) or none when the
constructor throws, and urlHost gives the parsed hostname. -/

structure JsEnv where
  urlScheme : String → Option String
  urlHost : String → Option String

/-! ## Data model (src types, FallbackService.ts, WebScraperService) -/

structure ContactInfo where
  email : String
  phone : String
  address : String
deriving Repr, DecidableEq

structure SocialMedia where
  linkedin : String
  twitter : String
  facebook : String
deriving Repr, DecidableEq

structure ScrapedData where
  businessName : String
  description : String
  services : List String
  contactInfo : ContactInfo
  socialMedia : SocialMedia
  keyContent : List String
deriving Repr, DecidableEq

structure UserFriendlyError where
  message : String
  code : String
  retryable : Bool
  suggestedAction : String
deriving Repr, DecidableEq

structure ManualBusinessInput where
  businessName : String
  description : String
  website : Option String := none
  email : Option String := none
  phone : Option String := none
  services : Option (List String) := none
  notes : Option String := none
deriving Repr, DecidableEq

/-- Quality assessment record: a 0-1 score plus a list of issues. -/
structure DataQuality where
  score : ℚ
  issues : List String
deriving Repr, DecidableEq

/-! ## ErrorHandler (src/unnamed/part_005, second document) -/

namespace ErrorHandler

/-- ErrorHandler.handleScrapingError, as a function of the thrown error's
    message: the message is lowercased and matched against substring
    patterns in source order; the first hit yields the classified error. -/
def handleScrapingError (errMessage : String) : UserFriendlyError :=
  let message := jsToLower errMessage
  if strIncludes message "timeout" ∨ strIncludes message "timed out" then
    { message := "The website took too long to respond. This might be due to slow loading or network issues."
      code := "TIMEOUT_ERROR"
      retryable := true
      suggestedAction := "Try again in a few moments, or enter the business information manually for faster results." }
  else if strIncludes message "net::err_name_not_resolved" ∨ strIncludes message "getaddrinfo enotfound" then
    { message := "The website URL could not be found. Please check if the URL is correct."
      code := "INVALID_URL"
      retryable := false
      suggestedAction := "Verify the website URL is correct and accessible, or enter business information manually." }
  else if strIncludes message "403" ∨ strIncludes message "forbidden" ∨ strIncludes message "blocked" then
    { message := "The website blocked our request. This is common with sites that have anti-bot protection."
      code := "ACCESS_BLOCKED"
      retryable := true
      suggestedAction := "The website may have security measures in place. Please enter the business information manually." }
  else if strIncludes message "404" ∨ strIncludes message "not found" then
    { message := "The webpage was not found. The URL might be incorrect or the page may have moved."
      code := "INVALID_URL"
      retryable := false
      suggestedAction := "Check if the URL is correct, or try the main website URL instead." }
  else if strIncludes message "network" ∨ strIncludes message "connection" then
    { message := "Network connection issue occurred while trying to access the website."
      code := "NETWORK_ERROR"
      retryable := true
      suggestedAction := "Check your internet connection and try again, or enter information manually." }
  else if strIncludes message "parse" ∨ strIncludes message "parsing" then
    { message := "Could not extract business information from the website content."
      code := "PARSING_ERROR"
      retryable := false
      suggestedAction := "The website structure may be unusual. Please enter business information manually." }
  else
    { message := "Unable to scrape the website. This could be due to various factors like website protection or unusual page structure."
      code := "SCRAPING_ERROR"
      retryable := true
      suggestedAction := "Please enter the business information manually for the best results." }

/-- ErrorHandler.handleEmailServiceError, as a function of the thrown
    error's message. -/
def handleEmailServiceError (errMessage : String) : UserFriendlyError :=
  let message := jsToLower errMessage
  if strIncludes message "authentication" ∨ strIncludes message "401" ∨ strIncludes message "unauthorized" then
    { message := "Email service authentication failed. Please check your Zoho credentials."
      code := "EMAIL_AUTH_ERROR"
      retryable := false
      suggestedAction := "Verify your Zoho email API credentials in the settings." }
  else if strIncludes message "refresh_token" ∨ strIncludes message "invalid_grant" then
    { message := "Zoho refresh token is invalid or expired. Please re-authenticate."
      code := "EMAIL_AUTH_ERROR"
      retryable := false
      suggestedAction := "Re-authenticate with Zoho and update your refresh token in the settings." }
  else if strIncludes message "client_id" ∨ strIncludes message "client_secret" then
    { message := "Zoho client credentials are invalid. Please check your client ID and secret."
      code := "EMAIL_AUTH_ERROR"
      retryable := false
      suggestedAction := "Verify your Zoho client ID and client secret in the settings." }
  else if strIncludes message "invalid recipient" ∨ strIncludes message "invalid email" ∨ strIncludes message "invalid_email" then
    { message := "The recipient email address is invalid or not accepted."
      code := "EMAIL_INVALID_RECIPIENT"
      retryable := false
      suggestedAction := "Check the recipient email address and try again." }
  else if strIncludes message "blocked" ∨ strIncludes message "blacklisted" then
    { message := "The recipient email address is blocked or blacklisted."
      code := "EMAIL_INVALID_RECIPIENT"
      retryable := false
      suggestedAction := "The recipient may have blocked emails from your domain. Try a different approach." }
  else if strIncludes message "content" ∨ strIncludes message "spam" then
    { message := "Email content was flagged as spam or contains prohibited content."
      code := "EMAIL_SEND_ERROR"
      retryable := false
      suggestedAction := "Review your email content and remove any potentially problematic text or links." }
  else if strIncludes message "quota" ∨ strIncludes message "limit" ∨ strIncludes message "rate limit" then
    { message := "Email sending limit reached for your account."
      code := "EMAIL_SEND_ERROR"
      retryable := true
      suggestedAction := "Wait until your email quota resets, or upgrade your email service plan." }
  else if strIncludes message "429" ∨ strIncludes message "too many requests" then
    { message := "Too many email requests. Please slow down your sending rate."
      code := "EMAIL_SEND_ERROR"
      retryable := true
      suggestedAction := "Wait a few minutes before sending more emails." }
  else if strIncludes message "500" ∨ strIncludes message "internal server error" then
    { message := "Zoho email service is experiencing internal issues."
      code := "EMAIL_SEND_ERROR"
      retryable := true
      suggestedAction := "Try again in a few minutes. If the problem persists, check Zoho service status." }
  else if strIncludes message "502" ∨ strIncludes message "503" ∨ strIncludes message "504" then
    { message := "Zoho email service is temporarily unavailable."
      code := "EMAIL_SEND_ERROR"
      retryable := true
      suggestedAction := "The service should recover shortly. Try again in a few minutes." }
  else if strIncludes message "timeout" ∨ strIncludes message "timed out" then
    { message := "Email sending request timed out."
      code := "EMAIL_SEND_ERROR"
      retryable := true
      suggestedAction := "Check your internet connection and try again." }
  else if strIncludes message "network" ∨ strIncludes message "connection" then
    { message := "Network error occurred while sending email."
      code := "EMAIL_SEND_ERROR"
      retryable := true
      suggestedAction := "Check your internet connection and try again." }
  else if strIncludes message "missing zoho configuration" ∨ strIncludes message "not configured" then
    { message := "Zoho email service is not properly configured."
      code := "EMAIL_AUTH_ERROR"
      retryable := false
      suggestedAction := "Add ZOHO_CLIENT_ID, ZOHO_CLIENT_SECRET, ZOHO_REFRESH_TOKEN, and ZOHO_EMAIL_ADDRESS to your .env file." }
  else if strIncludes message "account" ∨ strIncludes message "domain" then
    { message := "Issue with your Zoho account or domain configuration."
      code := "EMAIL_AUTH_ERROR"
      retryable := false
      suggestedAction := "Verify your Zoho account is active and properly configured for API access." }
  else
    { message := "Failed to send email through the email service."
      code := "EMAIL_SEND_ERROR"
      retryable := true
      suggestedAction := "Try sending the email again, or check your email service status." }

end ErrorHandler

/-! ## retryWithBackoff (src/unnamed/part_005, second document, lines 972-1000)

The operation is modelled as a function from the attempt index to an
Except outcome (a thrown Error carries its message, of type E).  The model
returns the final outcome together with the number of times the operation
was invoked; backoff delays are timing-only and do not affect the result. -/

/-- The retry loop body: attempt is the index of the invocation about to be
    made, remaining is the number of further loop iterations allowed after
    this one (maxRetries minus attempt). -/
def retryGo {E A : Type} (op : Nat → Except E A) (shouldRetry : Option (E → Bool))
    (attempt : Nat) (remaining : Nat) : Except E A × Nat :=
  match op attempt with
  | .ok a => (.ok a, attempt + 1)
  | .error e =>
    let dontRetry : Bool :=
      match shouldRetry with
      | some f => !(f e)
      | none => false
    if dontRetry then (.error e, attempt + 1)
    else
      match remaining with
      | 0 => (.error e, attempt + 1)
      | r + 1 => retryGo op shouldRetry (attempt + 1) r

/-- retryWithBackoff: run the operation up to maxRetries + 1 times; a
    failure the shouldRetry predicate rejects is rethrown at once; the last
    failure is rethrown when the budget is exhausted. -/
def retryWithBackoff {E A : Type} (op : Nat → Except E A) (maxRetries : Nat := 2)
    (shouldRetry : Option (E → Bool) := none) : Except E A × Nat :=
  retryGo op shouldRetry 0 maxRetries

/-! ## FallbackService (src/frontend/src/lib/services/FallbackService.ts) -/

/-- Scraping result record (WebScraperService.ScrapingResult); optional
    TypeScript fields are Options, Partial of ScrapedData is an Option. -/
structure ScrapingResult where
  success : Bool
  data : Option ScrapedData := none
  error : Option UserFriendlyError := none
  requiresManualInput : Option Bool := none
  suggestions : Option (List String) := none
  partialData : Option ScrapedData := none
deriving Repr, DecidableEq

/-- FallbackService.FallbackResult. -/
structure FallbackResult where
  success : Bool
  data : Option ScrapedData := none
  requiresManualInput : Bool
  error : Option UserFriendlyError := none
  suggestions : Option (List String) := none
deriving Repr, DecidableEq

/-- Manual-input validation outcome. -/
structure ValidationResult where
  valid : Bool
  errors : List String
deriving Repr, DecidableEq

namespace FallbackService

/-- FallbackService.convertManualInputToScrapedData: map manual fields 1:1
    into the ScrapedData shape with empty defaults (JS falsy fields fall
    back to the defaults). -/
def convertManualInputToScrapedData (input : ManualBusinessInput) : ScrapedData :=
  { businessName := if input.businessName ≠ "" then input.businessName else "Unknown Business"
    description := input.description
    services := (input.services).getD []
    contactInfo :=
      { email := (input.email).getD ""
        phone := (input.phone).getD ""
        address := "" }
    socialMedia := { linkedin := "", twitter := "", facebook := "" }
    keyContent :=
      match input.notes with
      | some n => if n ≠ "" then [n] else []
      | none => [] }

/-- FallbackService.getFallbackSuggestions. -/
def getFallbackSuggestions (env : JsEnv) (url : Option String)
    (error : Option UserFriendlyError) : List String :=
  let urlSuggestions : List String :=
    match url with
    | some u =>
      match env.urlHost u with
      | some host =>
        let domain := jsReplaceFirst host "www." ""
        let businessName := String.mk (domain.data.takeWhile (fun c => c ≠ '.'))
        ["Try searching for \"" ++ businessName ++ "\" on Google to find more information",
         "Check if the website has an \"About\" or \"Contact\" page",
         "Look for the business on LinkedIn or other social media platforms"]
      | none => []
    | none => []
  let errorSuggestions : List String :=
    match error with
    | some e =>
      if e.code = "TIMEOUT_ERROR" then
        ["The website might be slow - try visiting it manually first",
         "Check if the website is currently accessible"]
      else if e.code = "ACCESS_BLOCKED" then
        ["Visit the website manually to gather the information",
         "Look for a \"Press Kit\" or \"Media\" section that might have business details"]
      else if e.code = "INVALID_URL" then
        ["Verify the website URL is correct and complete",
         "Try adding \"https://\" if it\x27s missing"]
      else
        ["Visit the website manually to gather business information"]
    | none => []
  urlSuggestions ++ errorSuggestions ++
    ["Enter the business information manually for the most accurate results",
     "Focus on key details: business name, what they do, and contact information"]

/-- FallbackService.createFallbackResult. -/
def createFallbackResult (env : JsEnv) (url : Option String)
    (error : Option UserFriendlyError) (partialData : Option ScrapedData) : FallbackResult :=
  let suggestions := getFallbackSuggestions env url error
  match partialData with
  | some pd =>
    { success := true
      data := some pd
      requiresManualInput := true
      suggestions := some suggestions }
  | none =>
    { success := false
      requiresManualInput := true
      error := some (error.getD
        { message := "Unable to automatically extract business information"
          code := "SCRAPING_FAILED"
          retryable := false
          suggestedAction := "Please enter business information manually" })
      suggestions := some suggestions }

/-- FallbackService.isValidEmail: the anchored pattern of one at-sign
    preceded by a nonempty run of non-space non-at characters and followed
    by a nonempty run containing a dot with nonempty runs on both sides,
    all characters excluding whitespace and at-signs. -/
def isValidEmail (s : String) : Bool :=
  let cs := s.data
  let okChar : Char → Bool := fun c => !c.isWhitespace && c ≠ '@'
  let before := cs.takeWhile (fun c => c ≠ '@')
  let rest := cs.drop before.length
  match rest with
  | [] => false
  | _ :: after =>
    !before.isEmpty && before.all okChar && after.all okChar &&
      ((after.drop 1).dropLast.contains '.')

/-- FallbackService.isValidUrl: new URL(url) succeeds, any scheme. -/
def isValidUrl (env : JsEnv) (url : String) : Bool :=
  (env.urlScheme url).isSome

/-- FallbackService.validateManualInput: required business name, length
    caps on name and description, email format, URL format; errors are
    collected in source order and valid means no errors. -/
def validateManualInput (env : JsEnv) (input : ManualBusinessInput) : ValidationResult :=
  let errors : List String :=
    (if input.businessName = "" ∨ (jsTrim input.businessName).length = 0 then
      ["Business name is required"] else []) ++
    (if input.businessName ≠ "" ∧ (jsTrim input.businessName).length > 100 then
      ["Business name should be less than 100 characters"] else []) ++
    (if input.description ≠ "" ∧ input.description.length > 1000 then
      ["Description should be less than 1000 characters"] else []) ++
    (match input.email with
     | some e => if e ≠ "" ∧ !isValidEmail e then ["Please enter a valid email address"] else []
     | none => []) ++
    (match input.website with
     | some w => if w ≠ "" ∧ !isValidUrl env w then ["Please enter a valid website URL"] else []
     | none => [])
  { valid := errors.length = 0, errors := errors }

/-- FallbackService.mergeScrapedWithManual: manual field wins whenever
    truthy, otherwise the scraped value; the social block always comes from
    the scraped data; a truthy notes value is appended to the scraped key
    content. -/
def mergeScrapedWithManual (scrapedData : ScrapedData)
    (manualInput : ManualBusinessInput) : ScrapedData :=
  { businessName :=
      if manualInput.businessName ≠ "" then manualInput.businessName else scrapedData.businessName
    description :=
      if manualInput.description ≠ "" then manualInput.description else scrapedData.description
    services :=
      match manualInput.services with
      | some l => if l.length > 0 then l else scrapedData.services
      | none => scrapedData.services
    contactInfo :=
      { email :=
          match manualInput.email with
          | some e => if e ≠ "" then e else scrapedData.contactInfo.email
          | none => scrapedData.contactInfo.email
        phone :=
          match manualInput.phone with
          | some p => if p ≠ "" then p else scrapedData.contactInfo.phone
          | none => scrapedData.contactInfo.phone
        address := scrapedData.contactInfo.address }
    socialMedia := scrapedData.socialMedia
    keyContent :=
      match manualInput.notes with
      | some n => if n ≠ "" then scrapedData.keyContent ++ [n] else scrapedData.keyContent
      | none => scrapedData.keyContent }

end FallbackService

/-! ## WebScraperService (src/unnamed/part_005, first document) -/

namespace WebScraperService

/-- WebScraperService.isValidUrl: new URL(url) succeeds and the protocol is
    http or https. -/
def isValidUrl (env : JsEnv) (url : String) : Bool :=
  match env.urlScheme url with
  | some protocol => protocol = "http:" ∨ protocol = "https:"
  | none => false

/-- WebScraperService.assessDataQuality: weighted completeness score over
    the scraped fields (name 0.4, description 0.3, email 0.15, phone 0.1,
    services 0.05) with the issues collected alongside. -/
def assessDataQuality (data : ScrapedData) : DataQuality :=
  { score :=
      (if data.businessName ≠ "" ∧ data.businessName ≠ "Unknown Business" then (0.4 : ℚ) else 0) +
      (if data.description ≠ "" ∧ data.description.length > 20 then (0.3 : ℚ) else 0) +
      (if data.contactInfo.email ≠ "" then (0.15 : ℚ) else 0) +
      (if data.contactInfo.phone ≠ "" then (0.1 : ℚ) else 0) +
      (if data.services ≠ [] ∧ data.services.length > 0 then (0.05 : ℚ) else 0)
    issues :=
      (if data.businessName ≠ "" ∧ data.businessName ≠ "Unknown Business" then []
       else ["Business name not found"]) ++
      (if data.description ≠ "" ∧ data.description.length > 20 then []
       else ["Business description missing or too short"]) ++
      (if data.contactInfo.email ≠ "" then [] else ["Email address not found"]) }

/-- WebScraperService.createFallbackResult: wrap the FallbackService result
    back into the scraping result shape. -/
def createFallbackResult (env : JsEnv) (url : String) (error : UserFriendlyError)
    (partialData : Option ScrapedData) : ScrapingResult :=
  let fallbackResult := FallbackService.createFallbackResult env (some url) (some error) partialData
  { success := false
    error := fallbackResult.error
    requiresManualInput := some fallbackResult.requiresManualInput
    suggestions := fallbackResult.suggestions
    partialData := partialData }

/-- WebScraperService.scrapeWebsite.  The browser attempts are abstracted
    as a function from the attempt index to the attempt outcome (an
    exception message or a ScrapingResult, as attemptScraping produces).
    Returns the result paired with the number of scraping attempts
    performed; an invalid URL short-circuits before any attempt. -/
def scrapeWebsite (env : JsEnv) (attempts : Nat → Except String ScrapingResult)
    (url : String) (maxRetries : Nat := 2) : ScrapingResult × Nat :=
  if !isValidUrl env url then
    let error := ErrorHandler.handleScrapingError "Invalid URL format"
    (createFallbackResult env url error none, 0)
  else
    let retried := retryWithBackoff attempts maxRetries
      (some fun errMessage => (ErrorHandler.handleScrapingError errMessage).retryable)
    match retried with
    | (.ok result, n) =>
      match result.data with
      | some d =>
        if result.success then
          let dataQuality := assessDataQuality d
          if dataQuality.score < 0.3 then
            ({ success := true
               data := some d
               requiresManualInput := some true
               suggestions := some
                 (["The scraped information appears incomplete",
                   "Please review and add missing details manually"] ++
                  FallbackService.getFallbackSuggestions env (some url) none)
               partialData := some d }, n)
          else (result, n)
        else (result, n)
      | none => (result, n)
    | (.error errMessage, n) =>
      let userError := ErrorHandler.handleScrapingError errMessage
      (createFallbackResult env url userError none, n)

end WebScraperService

/-! ## BusinessDataService (src/unnamed/part_003) -/

/-- BusinessDataService.BusinessDataRequest. -/
structure BusinessDataRequest where
  url : Option String := none
  manualInput : Option ManualBusinessInput := none
  preferManual : Option Bool := none
deriving Repr, DecidableEq

/-- BusinessDataService.BusinessDataResult; source is one of the literals
    scraped, manual or combined. -/
structure BusinessDataResult where
  success : Bool
  data : Option ScrapedData := none
  source : String
  requiresManualInput : Bool
  suggestions : Option (List String) := none
  error : Option String := none
  quality : Option DataQuality := none
deriving Repr, DecidableEq

namespace BusinessDataService

/-- BusinessDataService.assessDataQuality: weighted completeness score
    (name 0.3, description 0.25 or 0.1 when short, email 0.2, phone 0.1,
    services 0.1, key content 0.05), capped at 1. -/
def assessDataQuality (data : ScrapedData) : DataQuality :=
  { score :=
      min
        ((if data.businessName ≠ "" ∧ data.businessName ≠ "Unknown Business" ∧
             (jsTrim data.businessName).length > 0 then (0.3 : ℚ) else 0) +
         (if data.description ≠ "" ∧ data.description.length > 20 then (0.25 : ℚ)
          else if data.description ≠ "" ∧ data.description.length > 0 then (0.1 : ℚ) else 0) +
         (if data.contactInfo.email ≠ "" then (0.2 : ℚ) else 0) +
         (if data.contactInfo.phone ≠ "" then (0.1 : ℚ) else 0) +
         (if data.services ≠ [] ∧ data.services.length > 0 then (0.1 : ℚ) else 0) +
         (if data.keyContent ≠ [] ∧ data.keyContent.length > 0 then (0.05 : ℚ) else 0))
        1
    issues :=
      (if data.businessName ≠ "" ∧ data.businessName ≠ "Unknown Business" ∧
          (jsTrim data.businessName).length > 0 then []
       else ["Business name is missing or generic"]) ++
      (if data.description ≠ "" ∧ data.description.length > 20 then []
       else if data.description ≠ "" ∧ data.description.length > 0 then
         ["Business description is very short"]
       else ["Business description is missing"]) ++
      (if data.contactInfo.email ≠ "" then [] else ["Email address not found"]) ++
      (if data.contactInfo.phone ≠ "" then [] else ["Phone number not found"]) ++
      (if data.services ≠ [] ∧ data.services.length > 0 then []
       else ["Services/products information not found"]) }

/-- BusinessDataService.handleManualInput. -/
def handleManualInput (env : JsEnv) (manualInput : Option ManualBusinessInput) :
    BusinessDataResult :=
  match manualInput with
  | none =>
    { success := false
      source := "manual"
      requiresManualInput := true
      suggestions := some ["Please enter the business information manually"] }
  | some input =>
    let validation := FallbackService.validateManualInput env input
    if !validation.valid then
      { success := false
        source := "manual"
        requiresManualInput := true
        error := some (String.intercalate ", " validation.errors)
        suggestions := some ["Please correct the validation errors and try again"] }
    else
      { success := true
        data := some (FallbackService.convertManualInputToScrapedData input)
        source := "manual"
        requiresManualInput := false
        quality := some { score := 1.0, issues := [] } }

/-- BusinessDataService.handleScrapingWithFallback. -/
def handleScrapingWithFallback (env : JsEnv) (attempts : Nat → Except String ScrapingResult)
    (url : String) : BusinessDataResult :=
  let scrapingResult := (WebScraperService.scrapeWebsite env attempts url).1
  match scrapingResult.data with
  | some d =>
    if scrapingResult.success then
      { success := true
        data := some d
        source := "scraped"
        requiresManualInput := (scrapingResult.requiresManualInput).getD false
        suggestions := scrapingResult.suggestions
        quality := some (assessDataQuality d) }
    else
      { success := false
        source := "scraped"
        requiresManualInput := true
        error := some ((scrapingResult.error.map (fun e => e.message)).getD "Failed to scrape website")
        suggestions := some ((scrapingResult.suggestions).getD
          ["Please enter the business information manually",
           "Visit the website to gather the information needed"]) }
  | none =>
    { success := false
      source := "scraped"
      requiresManualInput := true
      error := some (match scrapingResult.error with
        | some e => if e.message ≠ "" then e.message else "Failed to scrape website"
        | none => "Failed to scrape website")
      suggestions := some ((scrapingResult.suggestions).getD
        ["Please enter the business information manually",
         "Visit the website to gather the information needed"]) }

/-- BusinessDataService.handleCombinedInput. -/
def handleCombinedInput (env : JsEnv) (attempts : Nat → Except String ScrapingResult)
    (url : String) (manualInput : ManualBusinessInput) : BusinessDataResult :=
  let validation := FallbackService.validateManualInput env manualInput
  if !validation.valid then
    { success := false
      source := "manual"
      requiresManualInput := true
      error := some (String.intercalate ", " validation.errors) }
  else
    let scrapingResult := (WebScraperService.scrapeWebsite env attempts url).1
    match scrapingResult.data with
    | some d =>
      if scrapingResult.success then
        let mergedData := FallbackService.mergeScrapedWithManual d manualInput
        { success := true
          data := some mergedData
          source := "combined"
          requiresManualInput := false
          quality := some (assessDataQuality mergedData)
          suggestions := some
            ["Business information combined from website and manual input",
             "Manual input takes precedence where provided"] }
      else
        { success := true
          data := some (FallbackService.convertManualInputToScrapedData manualInput)
          source := "manual"
          requiresManualInput := false
          quality := some { score := 1.0, issues := [] }
          suggestions := some
            ["Website scraping failed, using manual input",
             (match scrapingResult.error with
              | some e => if e.message ≠ "" then e.message
                          else "Could not extract information from website"
              | none => "Could not extract information from website")] }
    | none =>
      { success := true
        data := some (FallbackService.convertManualInputToScrapedData manualInput)
        source := "manual"
        requiresManualInput := false
        quality := some { score := 1.0, issues := [] }
        suggestions := some
          ["Website scraping failed, using manual input",
           (match scrapingResult.error with
            | some e => if e.message ≠ "" then e.message
                        else "Could not extract information from website"
            | none => "Could not extract information from website")] }

/-- BusinessDataService.getBusinessData: branch on the request shape in the
    source's priority order (JS truthiness: an absent or empty url string
    is falsy, preferManual must be literally true). -/
def getBusinessData (env : JsEnv) (attempts : Nat → Except String ScrapingResult)
    (request : BusinessDataRequest) : BusinessDataResult :=
  if request.preferManual = some true ∨ request.url = none ∨ request.url = some "" then
    handleManualInput env request.manualInput
  else
    match request.url, request.manualInput with
    | some url, some manualInput => handleCombinedInput env attempts url manualInput
    | some url, none => handleScrapingWithFallback env attempts url
    | none, _ =>
      { success := false
        source := "manual"
        requiresManualInput := true
        error := some "No business information provided"
        suggestions := some
          ["Enter a website URL to automatically extract business information",
           "Or fill in the business details manually for the most accurate results"] }

end BusinessDataService

/-! ## ZohoEmailService (src/frontend/src/lib/services/ZohoEmailService.ts) -/

/-- Email payload handed to the mail sender. -/
structure EmailData where
  «to» : String
  subject : String
  htmlContent : String
  fromEmail : String
  fromName : String
deriving Repr, DecidableEq

/-- Send-status outcome for one email. -/
inductive SendStatus where
  | sent
  | failed
deriving Repr, DecidableEq

/-- The data block of a Zoho send response. -/
structure ZohoSendData where
  messageId : String
  status : String
deriving Repr, DecidableEq

/-- The status block of a Zoho send response. -/
structure ZohoStatusBlock where
  code : Int
  description : String
deriving Repr, DecidableEq

/-- Parsed body of a Zoho send response. -/
structure ZohoSendResponse where
  data : ZohoSendData
  status : ZohoStatusBlock
deriving Repr, DecidableEq

/-- One HTTP exchange with the provider send endpoint: the transport-level
    status, the ok flag (2xx), and the parsed JSON body when ok. -/
structure HttpSendResponse where
  ok : Bool
  status : Int
  body : ZohoSendResponse
  errorText : String := ""
deriving Repr, DecidableEq

/-- Result record for one sent email (SendResult; the wall-clock timestamp
    is not modelled). -/
structure SendResult where
  messageId : String
  status : SendStatus
  recipient : String
deriving Repr, DecidableEq

/-- Service-level envelope (ZohoEmailServiceResult). -/
structure ZohoEmailServiceResult where
  success : Bool
  data : Option SendResult := none
  error : Option UserFriendlyError := none
deriving Repr, DecidableEq

namespace ZohoEmailService

/-- ZohoEmailService.isValidEmail: same anchored pattern as the fallback
    service's validator. -/
def isValidEmail (email : String) : Bool :=
  FallbackService.isValidEmail email

/-- ZohoEmailService.validateEmailData: first failing local check, as the
    thrown error's message; none when all checks pass. -/
def validateEmailData (emailData : EmailData) : Option String :=
  if emailData.«to» = "" ∨ !isValidEmail emailData.«to» then
    some ("Invalid recipient email address: " ++ emailData.«to»)
  else if emailData.subject = "" ∨ (jsTrim emailData.subject).length = 0 then
    some "Email subject is required"
  else if emailData.htmlContent = "" ∨ (jsTrim emailData.htmlContent).length = 0 then
    some "Email content is required"
  else if emailData.fromEmail = "" ∨ !isValidEmail emailData.fromEmail then
    some ("Invalid sender email address: " ++ emailData.fromEmail)
  else if emailData.fromName = "" ∨ (jsTrim emailData.fromName).length = 0 then
    some "Sender name is required"
  else
    none

/-- ZohoEmailService.determineSendStatus. -/
def determineSendStatus (result : ZohoSendResponse) : SendStatus :=
  if result.status.code = 200 ∧ result.data.messageId ≠ "" then
    let status := jsToLower result.data.status
    if status = "sent" ∨ status = "queued" ∨ status = "delivered" then .sent
    else if status = "failed" ∨ status = "rejected" ∨ status = "bounced" then .failed
    else .sent
  else .failed

/-- ZohoEmailService.performEmailSend, as a function of the provider's
    response to this attempt: local validation, HTTP error mapping, the
    logical status-code check, then determineSendStatus.  Token
    acquisition is assumed to have succeeded (its failures surface as
    thrown messages through the same Except channel upstream). -/
def performEmailSend (emailData : EmailData) (response : HttpSendResponse) :
    Except String SendResult :=
  match validateEmailData emailData with
  | some errMessage => .error errMessage
  | none =>
    if !response.ok then
      if response.status = 401 then .error ("Authentication failed: " ++ response.errorText)
      else if response.status = 403 then .error ("Access forbidden: " ++ response.errorText)
      else if response.status = 429 then .error ("Rate limit exceeded: " ++ response.errorText)
      else if response.status = 500 then .error ("Internal server error: " ++ response.errorText)
      else if response.status = 502 ∨ response.status = 503 ∨ response.status = 504 then
        .error ("Service unavailable: " ++ response.errorText)
      else .error ("Zoho API error (" ++ toString response.status ++ "): " ++ response.errorText)
    else if response.body.status.code ≠ 200 then
      .error ("Zoho send failed: " ++ response.body.status.description)
    else
      .ok { messageId := response.body.data.messageId
            status := determineSendStatus response.body
            recipient := emailData.«to» }

/-- The retry loop of ZohoEmailService.retryEmailSend over a sequence of
    provider responses, one per attempt. -/
def retryEmailSendGo (emailData : EmailData) (responses : Nat → HttpSendResponse)
    (attempt : Nat) (remaining : Nat) : ZohoEmailServiceResult :=
  match performEmailSend emailData (responses attempt) with
    | .ok result => { success := true, data := some result }
    | .error errMessage =>
      let userError := ErrorHandler.handleEmailServiceError errMessage
      if !userError.retryable then
        { success := false, error := some userError }
      else
        match remaining with
        | 0 => { success := false, error := some userError }
        | r + 1 => retryEmailSendGo emailData responses (attempt + 1) r

/-- ZohoEmailService.retryEmailSend: retry transient failures with backoff
    up to maxRetries extra attempts; non-retryable classifications break
    out at once. -/
def retryEmailSend (emailData : EmailData) (responses : Nat → HttpSendResponse)
    (maxRetries : Nat := 2) : ZohoEmailServiceResult :=
  retryEmailSendGo emailData responses 0 maxRetries

end ZohoEmailService

/-! ## EmailTemplateService (src/frontend/src/lib/services/EmailTemplateService.ts,
second document: the placeholder-substitution renderer) -/

/-- A stored template: identity plus the raw HTML string. -/
structure EmailTemplate where
  id : String
  htmlTemplate : String
deriving Repr, DecidableEq

/-- Rendered email: substituted HTML plus the derived plain text. -/
structure RenderedEmail where
  htmlContent : String
  textContent : String
deriving Repr, DecidableEq

namespace EmailTemplateService

/-- The CONTENT placeholder token (double-braced). -/
def contentToken : String := "\x7b\x7bCONTENT\x7d\x7d"

/-- The BUSINESS_NAME placeholder token (double-braced). -/
def businessNameToken : String := "\x7b\x7bBUSINESS_NAME\x7d\x7d"

/-- EmailTemplateService.htmlToText: strip tags, decode a small set of
    entities, collapse whitespace, trim. -/
def htmlToText (html : String) : String :=
  let noTags := String.mk (stripTagsL html.data)
  let decoded :=
    jsReplaceAll (jsReplaceAll (jsReplaceAll (jsReplaceAll (jsReplaceAll noTags
      "&nbsp;" " ") "&amp;" "&") "&lt;" "<") "&gt;" ">") "&quot;" "\""
  jsTrim (String.mk (collapseWsL decoded.data))

/-- EmailTemplateService.getTemplate over the service's template map,
    modelled as an association list. -/
def getTemplate (templates : List (String × EmailTemplate)) (templateId : String) :
    Option EmailTemplate :=
  templates.lookup templateId

/-- EmailTemplateService.renderEmail: global substitution of the CONTENT
    token, then of the BUSINESS_NAME token when a truthy business name is
    given, then the plain-text derivation. -/
def renderEmail (templates : List (String × EmailTemplate)) (templateId : String)
    (content : String) (businessName : Option String := none) :
    Except String RenderedEmail :=
  match getTemplate templates templateId with
  | none => .error ("Template with ID " ++ templateId ++ " not found")
  | some template =>
    let afterContent := jsReplaceAll template.htmlTemplate contentToken content
    let htmlContent :=
      match businessName with
      | some b => if b ≠ "" then jsReplaceAll afterContent businessNameToken b else afterContent
      | none => afterContent
    .ok { htmlContent := htmlContent, textContent := htmlToText htmlContent }

end EmailTemplateService

/-! ## Definition modelled from the spec (for the refinement claim C2) -/

/-- Modelled from the spec: the quality weighting the specification states
    for the business-data orchestrator and attributes to the scraper as
    well — name 30 percent, description up to 25 percent, email 20
    percent, phone 10 percent, services 10 percent, misc key content 5
    percent, as a 0-1 completeness score. -/
def specQualityScore (data : ScrapedData) : ℚ :=
  min
    ((if data.businessName ≠ "" ∧ data.businessName ≠ "Unknown Business" ∧
         (jsTrim data.businessName).length > 0 then (0.3 : ℚ) else 0) +
     (if data.description ≠ "" ∧ data.description.length > 20 then (0.25 : ℚ)
      else if data.description ≠ "" ∧ data.description.length > 0 then (0.1 : ℚ) else 0) +
     (if data.contactInfo.email ≠ "" then (0.2 : ℚ) else 0) +
     (if data.contactInfo.phone ≠ "" then (0.1 : ℚ) else 0) +
     (if data.services ≠ [] ∧ data.services.length > 0 then (0.1 : ℚ) else 0) +
     (if data.keyContent ≠ [] ∧ data.keyContent.length > 0 then (0.05 : ℚ) else 0))
    1

/-! ## Helper lemmas -/

theorem stringMkData (s : String) : String.mk s.data = s := rfl

theorem iteWeightMono {p q : Prop} [Decidable p] [Decidable q] (w : ℚ)
    (hw : 0 ≤ w) (h : p → q) : (if p then w else 0) ≤ (if q then w else 0) := by
  by_cases hp : p
  · rw [if_pos hp, if_pos (h hp)]
  · rw [if_neg hp]
    by_cases hq : q <;> simp [hq, hw]

theorem iteWeightNonneg {p : Prop} [Decidable p] (w : ℚ) (hw : 0 ≤ w) :
    0 ≤ (if p then w else 0) := by
  by_cases hp : p <;> simp [hp, hw]

theorem descTierMono {p1 q1 p2 q2 : Prop} [Decidable p1] [Decidable q1]
    [Decidable p2] [Decidable q2] (h1 : p1 → p2) (h2 : q1 → q2) :
    (if p1 then (0.25 : ℚ) else if q1 then 0.1 else 0) ≤
      (if p2 then (0.25 : ℚ) else if q2 then 0.1 else 0) := by
  by_cases hp1 : p1
  · rw [if_pos hp1, if_pos (h1 hp1)]
  · rw [if_neg hp1]
    by_cases hq1 : q1
    · rw [if_pos hq1]
      by_cases hp2 : p2
      · rw [if_pos hp2]
        norm_num
      · rw [if_neg hp2, if_pos (h2 hq1)]
    · rw [if_neg hq1]
      by_cases hp2 : p2
      · rw [if_pos hp2]
        norm_num
      · rw [if_neg hp2]
        by_cases hq2 : q2
        · rw [if_pos hq2]
          norm_num
        · rw [if_neg hq2]

theorem retryGoOk {E A : Type} (op : Nat → Except E A) (sr : Option (E → Bool))
    (attempt remaining : Nat) (a : A) (h : op attempt = .ok a) :
    retryGo op sr attempt remaining = (.ok a, attempt + 1) := by
  unfold retryGo
  rw [h]

theorem retryGoErr {E A : Type} (op : Nat → Except E A) (sr : Option (E → Bool))
    (attempt remaining : Nat) (e : E) (h : op attempt = .error e) :
    retryGo op sr attempt remaining =
      (if (match sr with | some f => !(f e) | none => false) then (.error e, attempt + 1)
       else
        match remaining with
        | 0 => (.error e, attempt + 1)
        | r + 1 => retryGo op sr (attempt + 1) r) := by
  conv_lhs => rw [retryGo.eq_def]
  rw [h]

theorem retryGoOkAux {A : Type} (op : Nat → Except String A) (N : Nat) (a : A)
    (hfail : ∀ i, i < N → ∃ e, op i = .error e) (hok : op N = .ok a) :
    ∀ remaining start, start ≤ N → N ≤ start + remaining →
      retryGo op (some fun _ => true) start remaining = (.ok a, N + 1) := by
  intro remaining
  induction remaining with
  | zero =>
    intro start h1 h2
    have hsN : start = N := by omega
    subst hsN
    exact retryGoOk op _ _ _ a hok
  | succ r ih =>
    intro start h1 h2
    rcases Nat.lt_or_ge start N with hlt | hge
    · obtain ⟨e, he⟩ := hfail start hlt
      rw [retryGoErr op _ start (r + 1) e he]
      simp only [Bool.not_true, Bool.false_eq_true, if_false]
      exact ih (start + 1) (by omega) (by omega)
    · have hsN : start = N := by omega
      subst hsN
      exact retryGoOk op _ _ _ a hok

/-- Claim C6: retryWithBackoff returns the operation's success value when
    the operation fails N times then succeeds, shouldRetry is constantly
    true and maxRetries is at least N; and when shouldRetry rejects the
    first failure, that error is rethrown at once with the operation
    invoked exactly once. -/
theorem C6_retryWithBackoff (A : Type) :
    (∀ (op : Nat → Except String A) (N maxRetries : Nat) (a : A),
      (∀ i, i < N → ∃ e, op i = .error e) → op N = .ok a → N ≤ maxRetries →
      retryWithBackoff op maxRetries (some fun _ => true) = (.ok a, N + 1)) ∧
    (∀ (op : Nat → Except String A) (e : String) (f : String → Bool) (maxRetries : Nat),
      op 0 = .error e → f e = false →
      retryWithBackoff op maxRetries (some f) = (.error e, 1)) := by
  constructor
  · intro op N maxRetries a hfail hok hle
    exact retryGoOkAux op N a hfail hok maxRetries 0 (Nat.zero_le N) (by omega)
  · intro op e f maxRetries h0 hf
    unfold retryWithBackoff
    rw [retryGoErr op _ 0 maxRetries e h0]
    simp [hf]

/-- Claim C6 witness: a concrete operation failing twice then succeeding is
    retried to success, and a rejected first failure is rethrown with one
    invocation. -/
theorem C6_retryWithBackoff_witness :
    retryWithBackoff (fun i => if i < 2 then Except.error "boom" else Except.ok 7) 2
      (some fun _ => true) = (.ok 7, 3) ∧
    retryWithBackoff (fun _ => (Except.error "fatal" : Except String Nat)) 2
      (some fun _ => false) = (.error "fatal", 1) := by
  constructor
  · exact (C6_retryWithBackoff Nat).1 (fun i => if i < 2 then Except.error "boom" else Except.ok 7)
      2 2 7 (fun i hi => ⟨"boom", by interval_cases i <;> rfl⟩) rfl (le_refl 2)
  · exact (C6_retryWithBackoff Nat).2 (fun _ => Except.error "fatal") "fatal"
      (fun _ => false) 2 rfl rfl

/-! ## Sample data values -/

/-- A ScrapedData with every field empty. -/
def emptyScrapedData : ScrapedData :=
  { businessName := "", description := "", services := []
    contactInfo := { email := "", phone := "", address := "" }
    socialMedia := { linkedin := "", twitter := "", facebook := "" }
    keyContent := [] }

/-- A ScrapedData with only the generic fallback name. -/
def unknownScrapedData : ScrapedData :=
  { emptyScrapedData with businessName := "Unknown Business" }

/-- A ScrapedData with only a business name. -/
def nameOnlyData : ScrapedData :=
  { emptyScrapedData with businessName := "Acme" }

/-- A fully populated ScrapedData. -/
def sampleFullData : ScrapedData :=
  { businessName := "Acme Corp"
    description := "A well established consulting business"
    services := ["Consulting"]
    contactInfo := { email := "info@acme.com", phone := "555-123-4567", address := "1 Main St" }
    socialMedia := { linkedin := "https://linkedin.com/company/acme", twitter := "", facebook := "" }
    keyContent := ["Great service"] }

/-- Claim C2 counterexample: on a ScrapedData carrying only a business
    name, the orchestrator's quality score (0.3) differs from the
    scraper's (0.4), so the two assessDataQuality functions are not equal
    and do not share the claimed weighting. -/
theorem C2_counterexample :
    (BusinessDataService.assessDataQuality nameOnlyData).score ≠
      (WebScraperService.assessDataQuality nameOnlyData).score := by
  norm_num +decide [BusinessDataService.assessDataQuality, WebScraperService.assessDataQuality, specQualityScore, nameOnlyData, emptyScrapedData, unknownScrapedData, jsTrim]

/-- Claim C2 (amended): the orchestrator's assessDataQuality computes
    exactly the stated weighting (name 30 percent, description up to 25
    percent, email 20 percent, phone 10 percent, services 10 percent, misc
    key content 5 percent, capped at 1), but the scraper's
    assessDataQuality uses a different weighting (40/30/15/10/5 with no
    key-content term), so the two scores differ in general, e.g. 0.4
    against 0.3 on name-only data. -/
theorem C2_quality_weights :
    (∀ d : ScrapedData, (BusinessDataService.assessDataQuality d).score = specQualityScore d) ∧
    (WebScraperService.assessDataQuality nameOnlyData).score = 0.4 ∧
    specQualityScore nameOnlyData = 0.3 := by
  refine ⟨fun d => rfl, by norm_num +decide [BusinessDataService.assessDataQuality, WebScraperService.assessDataQuality, specQualityScore, nameOnlyData, emptyScrapedData, unknownScrapedData, jsTrim], by norm_num +decide [BusinessDataService.assessDataQuality, WebScraperService.assessDataQuality, specQualityScore, nameOnlyData, emptyScrapedData, unknownScrapedData, jsTrim]⟩

/-- Claim C5: both quality scores are monotonically non-decreasing as more
    quality-contributing features become present (never losing a feature),
    an empty or generic-name-only ScrapedData scores 0 under both, and a
    fully populated ScrapedData scores at least 0.9 under both. -/
theorem C5_quality_monotone_bounds :
    (∀ d1 d2 : ScrapedData,
      ((d1.businessName ≠ "" ∧ d1.businessName ≠ "Unknown Business" ∧
          (jsTrim d1.businessName).length > 0) →
       (d2.businessName ≠ "" ∧ d2.businessName ≠ "Unknown Business" ∧
          (jsTrim d2.businessName).length > 0)) →
      ((d1.description ≠ "" ∧ d1.description.length > 20) →
       (d2.description ≠ "" ∧ d2.description.length > 20)) →
      ((d1.description ≠ "" ∧ d1.description.length > 0) →
       (d2.description ≠ "" ∧ d2.description.length > 0)) →
      (d1.contactInfo.email ≠ "" → d2.contactInfo.email ≠ "") →
      (d1.contactInfo.phone ≠ "" → d2.contactInfo.phone ≠ "") →
      ((d1.services ≠ [] ∧ d1.services.length > 0) →
       (d2.services ≠ [] ∧ d2.services.length > 0)) →
      ((d1.keyContent ≠ [] ∧ d1.keyContent.length > 0) →
       (d2.keyContent ≠ [] ∧ d2.keyContent.length > 0)) →
      (BusinessDataService.assessDataQuality d1).score ≤
        (BusinessDataService.assessDataQuality d2).score) ∧
    (∀ d1 d2 : ScrapedData,
      ((d1.businessName ≠ "" ∧ d1.businessName ≠ "Unknown Business") →
       (d2.businessName ≠ "" ∧ d2.businessName ≠ "Unknown Business")) →
      ((d1.description ≠ "" ∧ d1.description.length > 20) →
       (d2.description ≠ "" ∧ d2.description.length > 20)) →
      (d1.contactInfo.email ≠ "" → d2.contactInfo.email ≠ "") →
      (d1.contactInfo.phone ≠ "" → d2.contactInfo.phone ≠ "") →
      ((d1.services ≠ [] ∧ d1.services.length > 0) →
       (d2.services ≠ [] ∧ d2.services.length > 0)) →
      (WebScraperService.assessDataQuality d1).score ≤
        (WebScraperService.assessDataQuality d2).score) ∧
    ((BusinessDataService.assessDataQuality emptyScrapedData).score = 0 ∧
     (WebScraperService.assessDataQuality emptyScrapedData).score = 0 ∧
     (BusinessDataService.assessDataQuality unknownScrapedData).score = 0 ∧
     (WebScraperService.assessDataQuality unknownScrapedData).score = 0) ∧
    (∀ d : ScrapedData,
      (d.businessName ≠ "" ∧ d.businessName ≠ "Unknown Business" ∧
        (jsTrim d.businessName).length > 0) →
      (d.description ≠ "" ∧ d.description.length > 20) →
      d.contactInfo.email ≠ "" →
      d.contactInfo.phone ≠ "" →
      d.services ≠ [] →
      (0.9 : ℚ) ≤ (BusinessDataService.assessDataQuality d).score ∧
      (0.9 : ℚ) ≤ (WebScraperService.assessDataQuality d).score) := by
  refine ⟨?_, ?_, ⟨by norm_num +decide [BusinessDataService.assessDataQuality, WebScraperService.assessDataQuality, specQualityScore, nameOnlyData, emptyScrapedData, unknownScrapedData, jsTrim], by norm_num +decide [BusinessDataService.assessDataQuality, WebScraperService.assessDataQuality, specQualityScore, nameOnlyData, emptyScrapedData, unknownScrapedData, jsTrim], by norm_num +decide [BusinessDataService.assessDataQuality, WebScraperService.assessDataQuality, specQualityScore, nameOnlyData, emptyScrapedData, unknownScrapedData, jsTrim], by norm_num +decide [BusinessDataService.assessDataQuality, WebScraperService.assessDataQuality, specQualityScore, nameOnlyData, emptyScrapedData, unknownScrapedData, jsTrim]⟩, ?_⟩
  · intro d1 d2 h1 h2 h2' h3 h4 h5 h6
    simp only [BusinessDataService.assessDataQuality]
    refine min_le_min ?_ le_rfl
    exact add_le_add
      (add_le_add
        (add_le_add
          (add_le_add
            (add_le_add (iteWeightMono 0.3 (by norm_num) h1) (descTierMono h2 h2'))
            (iteWeightMono 0.2 (by norm_num) h3))
          (iteWeightMono 0.1 (by norm_num) h4))
        (iteWeightMono 0.1 (by norm_num) h5))
      (iteWeightMono 0.05 (by norm_num) h6)
  · intro d1 d2 h1 h2 h3 h4 h5
    simp only [WebScraperService.assessDataQuality]
    exact add_le_add
      (add_le_add
        (add_le_add
          (add_le_add (iteWeightMono 0.4 (by norm_num) h1) (iteWeightMono 0.3 (by norm_num) h2))
          (iteWeightMono 0.15 (by norm_num) h3))
        (iteWeightMono 0.1 (by norm_num) h4))
      (iteWeightMono 0.05 (by norm_num) h5)
  · intro d hname hdesc hemail hphone hserv
    have hservLen : d.services ≠ [] ∧ d.services.length > 0 :=
      ⟨hserv, List.length_pos.mpr hserv⟩
    constructor
    · simp only [BusinessDataService.assessDataQuality]
      rw [if_pos hname, if_pos hdesc, if_pos hemail, if_pos hphone, if_pos hservLen]
      have h6 : (0 : ℚ) ≤
          (if d.keyContent ≠ [] ∧ d.keyContent.length > 0 then (0.05 : ℚ) else 0) :=
        iteWeightNonneg 0.05 (by norm_num)
      refine le_min ?_ (by norm_num)
      linarith
    · simp only [WebScraperService.assessDataQuality]
      rw [if_pos ⟨hname.1, hname.2.1⟩, if_pos hdesc, if_pos hemail, if_pos hphone,
        if_pos hservLen]
      norm_num

/-- Claim C5 witness: concrete monotone pairs and the fully populated
    sample discharge every hypothesis. -/
theorem C5_quality_monotone_bounds_witness :
    (BusinessDataService.assessDataQuality emptyScrapedData).score ≤
      (BusinessDataService.assessDataQuality sampleFullData).score ∧
    (WebScraperService.assessDataQuality emptyScrapedData).score ≤
      (WebScraperService.assessDataQuality sampleFullData).score ∧
    (0.9 : ℚ) ≤ (BusinessDataService.assessDataQuality sampleFullData).score ∧
    (0.9 : ℚ) ≤ (WebScraperService.assessDataQuality sampleFullData).score := by
  refine ⟨?_, ?_, ?_, ?_⟩
  · exact C5_quality_monotone_bounds.1 emptyScrapedData sampleFullData
      (fun _ => by decide) (fun _ => by decide) (fun _ => by decide) (fun _ => by decide)
      (fun _ => by decide) (fun _ => by decide) (fun _ => by decide)
  · exact C5_quality_monotone_bounds.2.1 emptyScrapedData sampleFullData
      (fun _ => by decide) (fun _ => by decide) (fun _ => by decide) (fun _ => by decide)
      (fun _ => by decide)
  · exact (C5_quality_monotone_bounds.2.2.2 sampleFullData (by decide) (by decide)
      (by decide) (by decide) (by decide)).1
  · exact (C5_quality_monotone_bounds.2.2.2 sampleFullData (by decide) (by decide)
      (by decide) (by decide) (by decide)).2

/-- Claim C3 counterexample: a 101-character business name is non-empty
    after trimming and carries no email or website, yet validateManualInput
    rejects it through the length cap, so non-emptiness plus well-formed
    optional fields alone do not guarantee a valid result. -/
theorem C3_counterexample :
    (jsTrim (String.mk (List.replicate 101 'a'))).length > 0 ∧
    (FallbackService.validateManualInput ⟨fun _ => none, fun _ => none⟩
      { businessName := String.mk (List.replicate 101 'a'), description := "" }).valid = false ∧
    (FallbackService.validateManualInput ⟨fun _ => none, fun _ => none⟩
      { businessName := String.mk (List.replicate 101 'a'), description := "" }).errors ≠ [] := by
  refine ⟨by decide, by decide, by decide⟩

/-- Claim C3 (amended): for manual input whose business name is non-empty
    after trimming and at most 100 characters after trimming, whose
    description is at most 1000 characters, and whose email and website,
    when supplied non-empty, are well-formed, validateManualInput returns
    valid with no errors; and an empty business name always yields at
    least one error. -/
theorem C3_validate_manual_input :
    (∀ (env : JsEnv) (input : ManualBusinessInput),
      0 < (jsTrim input.businessName).length →
      (jsTrim input.businessName).length ≤ 100 →
      input.description.length ≤ 1000 →
      (∀ e, input.email = some e → e ≠ "" → FallbackService.isValidEmail e = true) →
      (∀ w, input.website = some w → w ≠ "" → FallbackService.isValidUrl env w = true) →
      FallbackService.validateManualInput env input = { valid := true, errors := [] }) ∧
    (∀ (env : JsEnv) (input : ManualBusinessInput),
      input.businessName = "" ∨ (jsTrim input.businessName).length = 0 →
      (FallbackService.validateManualInput env input).errors ≠ []) := by
  constructor
  · intro env input h1 h2 h3 h4 h5
    have hreq : ¬(input.businessName = "" ∨ (jsTrim input.businessName).length = 0) := by
      rintro (he | hz)
      · rw [he] at h1
        exact absurd h1 (by decide)
      · omega
    have hcap : ¬(input.businessName ≠ "" ∧ (jsTrim input.businessName).length > 100) := by
      rintro ⟨-, hgt⟩
      omega
    have hdesc : ¬(input.description ≠ "" ∧ input.description.length > 1000) := by
      rintro ⟨-, hgt⟩
      omega
    have hemail :
        (match input.email with
         | some e =>
           if e ≠ "" ∧ !FallbackService.isValidEmail e then
             ["Please enter a valid email address"] else []
         | none => []) = [] := by
      rcases hm : input.email with _ | e
      · rfl
      · show (if e ≠ "" ∧ !FallbackService.isValidEmail e then
            ["Please enter a valid email address"] else []) = []
        rw [if_neg]
        rintro ⟨hne, hbad⟩
        rw [h4 e hm hne] at hbad
        simp at hbad
    have hweb :
        (match input.website with
         | some w =>
           if w ≠ "" ∧ !FallbackService.isValidUrl env w then
             ["Please enter a valid website URL"] else []
         | none => []) = [] := by
      rcases hm : input.website with _ | w
      · rfl
      · show (if w ≠ "" ∧ !FallbackService.isValidUrl env w then
            ["Please enter a valid website URL"] else []) = []
        rw [if_neg]
        rintro ⟨hne, hbad⟩
        rw [h5 w hm hne] at hbad
        simp at hbad
    simp only [FallbackService.validateManualInput]
    rw [if_neg hreq, if_neg hcap, if_neg hdesc, hemail, hweb]
    rfl
  · intro env input h
    simp only [FallbackService.validateManualInput]
    rw [if_pos h]
    simp

/-- Claim C3 witness: a concrete well-formed input validates cleanly and a
    concrete empty-name input yields an error. -/
theorem C3_validate_manual_input_witness :
    FallbackService.validateManualInput
      ⟨fun _ => some "https:", fun _ => some "acme.com"⟩
      { businessName := "Acme", description := "A small firm",
        website := some "https://acme.com", email := some "info@acme.com" } =
      { valid := true, errors := [] } ∧
    (FallbackService.validateManualInput ⟨fun _ => none, fun _ => none⟩
      { businessName := "", description := "" }).errors ≠ [] := by
  constructor
  · refine C3_validate_manual_input.1 _ _ (by decide) (by decide) (by decide) ?_ ?_
    · intro e he hne
      cases he
      decide
    · intro w hw hne
      cases hw
      decide
  · exact C3_validate_manual_input.2 ⟨fun _ => none, fun _ => none⟩ _ (Or.inl rfl)

/-! ## Scenario data for the merge claim -/

/-- Scraped side of the merge scenario. -/
def scenarioScraped : ScrapedData :=
  { businessName := "Acme"
    description := "Scraped description of Acme"
    services := ["Widgets"]
    contactInfo := { email := "", phone := "555-000-1111", address := "1 Main St" }
    socialMedia := { linkedin := "li", twitter := "tw", facebook := "fb" }
    keyContent := ["Known for quality"] }

/-- Manual side of the merge scenario. -/
def scenarioManual : ManualBusinessInput :=
  { businessName := "Acme Corp", description := "", email := some "a@b.com" }

/-- Claim C4 counterexample: a notes field that is present but empty is not
    appended to the scraped key content, contradicting the claim that a
    present notes field is always appended. -/
theorem C4_counterexample :
    ({ businessName := "Acme Corp", description := "", notes := some "" } :
        ManualBusinessInput).notes = some "" ∧
    (FallbackService.mergeScrapedWithManual scenarioScraped
        { businessName := "Acme Corp", description := "", notes := some "" }).keyContent ≠
      scenarioScraped.keyContent ++ [""] := by
  refine ⟨rfl, by decide⟩

/-- Claim C4 (amended): in mergeScrapedWithManual every manual field that
    is present and non-empty wins, every absent or empty manual field
    falls back to the scraped value, the social block and the address
    always come from the scraped data, and the notes field is appended to
    the scraped key content exactly when it is present and non-empty. -/
theorem C4_merge_fields (scraped : ScrapedData) (m : ManualBusinessInput) :
    (m.businessName ≠ "" →
      (FallbackService.mergeScrapedWithManual scraped m).businessName = m.businessName) ∧
    (m.businessName = "" →
      (FallbackService.mergeScrapedWithManual scraped m).businessName = scraped.businessName) ∧
    (m.description ≠ "" →
      (FallbackService.mergeScrapedWithManual scraped m).description = m.description) ∧
    (m.description = "" →
      (FallbackService.mergeScrapedWithManual scraped m).description = scraped.description) ∧
    (∀ l, m.services = some l → l ≠ [] →
      (FallbackService.mergeScrapedWithManual scraped m).services = l) ∧
    (m.services = none ∨ m.services = some [] →
      (FallbackService.mergeScrapedWithManual scraped m).services = scraped.services) ∧
    (∀ e, m.email = some e → e ≠ "" →
      (FallbackService.mergeScrapedWithManual scraped m).contactInfo.email = e) ∧
    (m.email = none ∨ m.email = some "" →
      (FallbackService.mergeScrapedWithManual scraped m).contactInfo.email =
        scraped.contactInfo.email) ∧
    (∀ p, m.phone = some p → p ≠ "" →
      (FallbackService.mergeScrapedWithManual scraped m).contactInfo.phone = p) ∧
    (m.phone = none ∨ m.phone = some "" →
      (FallbackService.mergeScrapedWithManual scraped m).contactInfo.phone =
        scraped.contactInfo.phone) ∧
    (FallbackService.mergeScrapedWithManual scraped m).contactInfo.address =
      scraped.contactInfo.address ∧
    (FallbackService.mergeScrapedWithManual scraped m).socialMedia = scraped.socialMedia ∧
    (∀ n, m.notes = some n → n ≠ "" →
      (FallbackService.mergeScrapedWithManual scraped m).keyContent =
        scraped.keyContent ++ [n]) ∧
    (m.notes = none ∨ m.notes = some "" →
      (FallbackService.mergeScrapedWithManual scraped m).keyContent = scraped.keyContent) := by
  unfold FallbackService.mergeScrapedWithManual
  refine ⟨?_, ?_, ?_, ?_, ?_, ?_, ?_, ?_, ?_, ?_, rfl, rfl, ?_, ?_⟩
  · intro h
    simp [h]
  · intro h
    simp [h]
  · intro h
    simp [h]
  · intro h
    simp [h]
  · intro l hl hne
    simp only [hl]
    rw [if_pos (List.length_pos.mpr hne)]
  · rintro (h | h) <;> simp [h]
  · intro e he hne
    simp [he, hne]
  · rintro (h | h) <;> simp [h]
  · intro p hp hne
    simp [hp, hne]
  · rintro (h | h) <;> simp [h]
  · intro n hn hne
    simp [hn, hne]
  · rintro (h | h) <;> simp [h]

/-- Claim C4 witness: the merge scenario of the spec, with the manual name
    and email winning, scraped phone, social and key content preserved. -/
theorem C4_merge_fields_witness :
    (FallbackService.mergeScrapedWithManual scenarioScraped scenarioManual).businessName =
      "Acme Corp" ∧
    (FallbackService.mergeScrapedWithManual scenarioScraped scenarioManual).contactInfo.email =
      "a@b.com" ∧
    (FallbackService.mergeScrapedWithManual scenarioScraped scenarioManual).contactInfo.phone =
      scenarioScraped.contactInfo.phone ∧
    (FallbackService.mergeScrapedWithManual scenarioScraped scenarioManual).socialMedia =
      scenarioScraped.socialMedia ∧
    (FallbackService.mergeScrapedWithManual scenarioScraped scenarioManual).keyContent =
      scenarioScraped.keyContent := by
  obtain ⟨h1, h2, h3, h4, h5, h6, h7, h8, h9, h10, h11, h12, h13, h14⟩ :=
    C4_merge_fields scenarioScraped scenarioManual
  exact ⟨h1 (by decide), h7 "a@b.com" rfl (by decide), h10 (Or.inl rfl), h12,
    h14 (Or.inl rfl)⟩

/-- Claim C1 counterexample: on the input not-a-url (whose URL parse
    fails), scrapeWebsite returns the generic scraping-error fallback, so
    the error code is SCRAPING_ERROR with retryable true rather than the
    claimed INVALID_URL with retryable false. -/
theorem C1_counterexample :
    WebScraperService.isValidUrl ⟨fun _ => none, fun _ => none⟩ "not-a-url" = false ∧
    ((WebScraperService.scrapeWebsite ⟨fun _ => none, fun _ => none⟩
        (fun _ => .ok { success := false }) "not-a-url" 2).1.error.map
      (fun e => (e.code, e.retryable))) = some ("SCRAPING_ERROR", true) := by
  exact ⟨rfl, rfl⟩

/-- Claim C1 (amended): for every input whose URL parse does not yield an
    http or https scheme, scrapeWebsite short-circuits with success false,
    requiresManualInput true and zero scraping attempts, but the error it
    carries is the classifier's generic SCRAPING_ERROR with retryable true
    (the internal message Invalid URL format matches none of the specific
    patterns), not INVALID_URL with retryable false. -/
theorem C1_invalid_url_no_attempt (env : JsEnv)
    (attempts : Nat → Except String ScrapingResult) (url : String) (maxRetries : Nat)
    (h : WebScraperService.isValidUrl env url = false) :
    (WebScraperService.scrapeWebsite env attempts url maxRetries).1.success = false ∧
    (WebScraperService.scrapeWebsite env attempts url maxRetries).1.requiresManualInput =
      some true ∧
    (WebScraperService.scrapeWebsite env attempts url maxRetries).1.error =
      some (ErrorHandler.handleScrapingError "Invalid URL format") ∧
    (ErrorHandler.handleScrapingError "Invalid URL format").code = "SCRAPING_ERROR" ∧
    (ErrorHandler.handleScrapingError "Invalid URL format").retryable = true ∧
    (WebScraperService.scrapeWebsite env attempts url maxRetries).2 = 0 := by
  have hrw : WebScraperService.scrapeWebsite env attempts url maxRetries =
      (WebScraperService.createFallbackResult env url
        (ErrorHandler.handleScrapingError "Invalid URL format") none, 0) := by
    unfold WebScraperService.scrapeWebsite
    rw [h]
    rfl
  rw [hrw]
  exact ⟨rfl, rfl, rfl, by decide, by decide, rfl⟩

/-- Claim C1 witness: the concrete invalid input exercises the amended
    theorem. -/
theorem C1_invalid_url_no_attempt_witness :
    (WebScraperService.scrapeWebsite ⟨fun _ => none, fun _ => none⟩
        (fun _ => .ok { success := false }) "not-a-url" 2).1.success = false ∧
    (WebScraperService.scrapeWebsite ⟨fun _ => none, fun _ => none⟩
        (fun _ => .ok { success := false }) "not-a-url" 2).1.requiresManualInput = some true ∧
    (WebScraperService.scrapeWebsite ⟨fun _ => none, fun _ => none⟩
        (fun _ => .ok { success := false }) "not-a-url" 2).2 = 0 := by
  obtain ⟨h1, h2, h3, h4, h5, h6⟩ :=
    C1_invalid_url_no_attempt ⟨fun _ => none, fun _ => none⟩
      (fun _ => .ok { success := false }) "not-a-url" 2 rfl
  exact ⟨h1, h2, h6⟩

/-- Claim C7: a provider response with HTTP 200 and logical status code 200
    whose data.status is failed, rejected or bounced is classified as a
    failed send: determineSendStatus yields failed, performEmailSend
    reports the email's status as failed, and the retry wrapper surfaces
    that same failed SendResult. -/
theorem C7_embedded_failure_status (emailData : EmailData) (response : HttpSendResponse)
    (responses : Nat → HttpSendResponse)
    (hval : ZohoEmailService.validateEmailData emailData = none)
    (hok : response.ok = true) (hstatus : response.status = 200)
    (hcode : response.body.status.code = 200)
    (hst : response.body.data.status = "failed" ∨ response.body.data.status = "rejected" ∨
      response.body.data.status = "bounced")
    (hresp0 : responses 0 = response) :
    ZohoEmailService.determineSendStatus response.body = .failed ∧
    ZohoEmailService.performEmailSend emailData response =
      .ok { messageId := response.body.data.messageId, status := .failed,
            recipient := emailData.«to» } ∧
    (ZohoEmailService.retryEmailSend emailData responses 2).success = true ∧
    (ZohoEmailService.retryEmailSend emailData responses 2).data =
      some { messageId := response.body.data.messageId, status := .failed,
             recipient := emailData.«to» } := by
  have hdet : ZohoEmailService.determineSendStatus response.body = .failed := by
    unfold ZohoEmailService.determineSendStatus
    by_cases hmid : response.body.data.messageId ≠ ""
    · rw [if_pos ⟨hcode, hmid⟩]
      rcases hst with h | h | h <;> rw [h] <;> decide
    · rw [if_neg (by tauto)]
  have hperf : ZohoEmailService.performEmailSend emailData response =
      .ok { messageId := response.body.data.messageId, status := .failed,
            recipient := emailData.«to» } := by
    unfold ZohoEmailService.performEmailSend
    simp only [hval, hok, Bool.not_true, Bool.false_eq_true, if_false]
    rw [if_neg (by simp [hcode]), hdet]
  have hretry : ZohoEmailService.retryEmailSend emailData responses 2 =
      { success := true,
        data := some { messageId := response.body.data.messageId, status := .failed,
                       recipient := emailData.«to» } } := by
    unfold ZohoEmailService.retryEmailSend ZohoEmailService.retryEmailSendGo
    rw [hresp0, hperf]
  exact ⟨hdet, hperf, by rw [hretry], by rw [hretry]⟩

/-- Claim C7 witness: a concrete 200 response embedding a failed logical
    status is reported as a failed send. -/
theorem C7_embedded_failure_status_witness :
    (ZohoEmailService.retryEmailSend
        { «to» := "r@x.com", subject := "Hello", htmlContent := "<p>Hi</p>",
          fromEmail := "s@x.com", fromName := "Sender" }
        (fun _ =>
          { ok := true, status := 200,
            body := { data := { messageId := "mid1", status := "failed" },
                      status := { code := 200, description := "OK" } } }) 2).data =
      some { messageId := "mid1", status := .failed, recipient := "r@x.com" } := by
  obtain ⟨h1, h2, h3, h4⟩ :=
    C7_embedded_failure_status
      { «to» := "r@x.com", subject := "Hello", htmlContent := "<p>Hi</p>",
        fromEmail := "s@x.com", fromName := "Sender" }
      { ok := true, status := 200,
        body := { data := { messageId := "mid1", status := "failed" },
                  status := { code := 200, description := "OK" } } }
      (fun _ =>
        { ok := true, status := 200,
          body := { data := { messageId := "mid1", status := "failed" },
                    status := { code := 200, description := "OK" } } })
      (by decide) rfl rfl rfl (Or.inl rfl) rfl
  exact h4

theorem replaceAllLNoSub (pat rep : List Char) :
    ∀ l, hasSub pat l = false → replaceAllL pat rep l = l := by
  intro l
  induction l with
  | nil =>
    intro h
    rw [replaceAllL.eq_def]
  | cons c rest ih =>
    intro h
    have h' : (pat.isPrefixOf (c :: rest) || hasSub pat rest) = false := h
    rw [Bool.or_eq_false_iff] at h'
    rw [replaceAllL.eq_def]
    show (if pat.isPrefixOf (c :: rest) ∧ pat ≠ [] then
        rep ++ replaceAllL pat rep (rest.drop (pat.length - 1))
      else c :: replaceAllL pat rep rest) = c :: rest
    rw [if_neg (by
      rintro ⟨hp, -⟩
      rw [h'.1] at hp
      exact absurd hp (by simp))]
    rw [ih h'.2]

theorem jsReplaceAllNoSub (s pat rep : String) (h : strIncludes s pat = false) :
    jsReplaceAll s pat rep = s := by
  unfold jsReplaceAll
  rw [replaceAllLNoSub pat.data rep.data s.data h]

/-- Claim C8: rendering a template whose HTML contains neither the CONTENT
    token nor the BUSINESS_NAME token returns that HTML unchanged as
    htmlContent, and renderEmail is a pure function of the looked-up
    template, the content and the business name: any two service states
    that resolve the id to the same template render identically. -/
theorem C8_render_unchanged_pure :
    (∀ (templates : List (String × EmailTemplate)) (templateId content : String)
        (businessName : Option String) (t : EmailTemplate),
      EmailTemplateService.getTemplate templates templateId = some t →
      strIncludes t.htmlTemplate EmailTemplateService.contentToken = false →
      strIncludes t.htmlTemplate EmailTemplateService.businessNameToken = false →
      EmailTemplateService.renderEmail templates templateId content businessName =
        .ok { htmlContent := t.htmlTemplate,
              textContent := EmailTemplateService.htmlToText t.htmlTemplate }) ∧
    (∀ (templates1 templates2 : List (String × EmailTemplate))
        (id1 id2 content : String) (businessName : Option String) (t : EmailTemplate),
      EmailTemplateService.getTemplate templates1 id1 = some t →
      EmailTemplateService.getTemplate templates2 id2 = some t →
      EmailTemplateService.renderEmail templates1 id1 content businessName =
        EmailTemplateService.renderEmail templates2 id2 content businessName) := by
  constructor
  · intro ts templateId content businessName t hget hc hb
    unfold EmailTemplateService.renderEmail
    simp only [hget]
    rw [jsReplaceAllNoSub _ _ _ hc]
    rcases businessName with _ | b
    · rfl
    · dsimp only
      by_cases hbne : b ≠ ""
      · rw [if_pos hbne, jsReplaceAllNoSub _ _ _ hb]
      · rw [if_neg hbne]
  · intro ts1 ts2 id1 id2 content businessName t h1 h2
    unfold EmailTemplateService.renderEmail
    rw [h1, h2]

/-- Claim C8 witness: a token-free template renders to itself, and two
    different stores resolving to the same template render identically. -/
theorem C8_render_unchanged_pure_witness :
    EmailTemplateService.renderEmail [("tpl", { id := "tpl", htmlTemplate := "<p>Plain</p>" })]
      "tpl" "IGNORED" (some "Biz") =
      .ok { htmlContent := "<p>Plain</p>",
            textContent := EmailTemplateService.htmlToText "<p>Plain</p>" } ∧
    EmailTemplateService.renderEmail [("tpl", { id := "tpl", htmlTemplate := "<p>Plain</p>" })]
      "tpl" "X" none =
      EmailTemplateService.renderEmail
        [("other", { id := "other", htmlTemplate := "<p>O</p>" }),
         ("tpl", { id := "tpl", htmlTemplate := "<p>Plain</p>" })] "tpl" "X" none := by
  constructor
  · exact C8_render_unchanged_pure.1 _ "tpl" "IGNORED" (some "Biz")
      { id := "tpl", htmlTemplate := "<p>Plain</p>" } rfl (by decide) (by decide)
  · exact C8_render_unchanged_pure.2 _ _ "tpl" "tpl" "X" none
      { id := "tpl", htmlTemplate := "<p>Plain</p>" } rfl rfl

theorem getBusinessDataCombined (env : JsEnv) (attempts : Nat → Except String ScrapingResult)
    (url : String) (m : ManualBusinessInput) (preferManual : Option Bool)
    (hurl : url ≠ "") (hpm : preferManual ≠ some true) :
    BusinessDataService.getBusinessData env attempts
      { url := some url, manualInput := some m, preferManual := preferManual } =
      BusinessDataService.handleCombinedInput env attempts url m := by
  unfold BusinessDataService.getBusinessData
  rw [if_neg (by
    rintro (h | h | h)
    · exact hpm h
    · exact Option.noConfusion h
    · injection h with h'
      exact hurl h')]

theorem combinedScrapeFailEq (env : JsEnv) (attempts : Nat → Except String ScrapingResult)
    (url : String) (m : ManualBusinessInput)
    (hvalid : (FallbackService.validateManualInput env m).valid = true)
    (hfail : (WebScraperService.scrapeWebsite env attempts url 2).1.success = false) :
    BusinessDataService.handleCombinedInput env attempts url m =
      { success := true
        data := some (FallbackService.convertManualInputToScrapedData m)
        source := "manual"
        requiresManualInput := false
        quality := some { score := 1.0, issues := [] }
        suggestions := some
          ["Website scraping failed, using manual input",
           (match (WebScraperService.scrapeWebsite env attempts url 2).1.error with
            | some e => if e.message ≠ "" then e.message
                        else "Could not extract information from website"
            | none => "Could not extract information from website")] } := by
  unfold BusinessDataService.handleCombinedInput
  simp only [hvalid, Bool.not_true, Bool.false_eq_true, if_false]
  rcases hd : (WebScraperService.scrapeWebsite env attempts url 2).1.data with _ | d
  · rfl
  · simp only [hfail, Bool.false_eq_true, if_false]

/-- Claim C9 counterexample: a request that supplies both a URL and valid
    manual input but sets preferManual is routed to the manual-only path,
    so even though scraping that URL fails, the success result carries no
    suggestion about the scraping failure. -/
theorem C9_counterexample :
    (FallbackService.validateManualInput ⟨fun _ => none, fun _ => none⟩
      { businessName := "Acme", description := "" }).valid = true ∧
    (WebScraperService.scrapeWebsite ⟨fun _ => none, fun _ => none⟩
      (fun _ => .ok { success := false }) "http://x" 2).1.success = false ∧
    (BusinessDataService.getBusinessData ⟨fun _ => none, fun _ => none⟩
      (fun _ => .ok { success := false })
      { url := some "http://x",
        manualInput := some { businessName := "Acme", description := "" },
        preferManual := some true }).success = true ∧
    (BusinessDataService.getBusinessData ⟨fun _ => none, fun _ => none⟩
      (fun _ => .ok { success := false })
      { url := some "http://x",
        manualInput := some { businessName := "Acme", description := "" },
        preferManual := some true }).suggestions = none := by
  exact ⟨by decide, by decide, by decide, by decide⟩

/-- Claim C9 (amended): for every request supplying a non-empty URL and
    valid manual input without preferring manual, when scraping the URL
    fails getBusinessData returns success with the manual input converted
    to ScrapedData, source manual, requiresManualInput false, and a
    leading suggestion explaining the scraping failure. -/
theorem C9_combined_scrape_failure (env : JsEnv)
    (attempts : Nat → Except String ScrapingResult) (url : String)
    (m : ManualBusinessInput) (preferManual : Option Bool)
    (hurl : url ≠ "") (hpm : preferManual ≠ some true)
    (hvalid : (FallbackService.validateManualInput env m).valid = true)
    (hfail : (WebScraperService.scrapeWebsite env attempts url 2).1.success = false) :
    (BusinessDataService.getBusinessData env attempts
      { url := some url, manualInput := some m, preferManual := preferManual }).success = true ∧
    (BusinessDataService.getBusinessData env attempts
      { url := some url, manualInput := some m, preferManual := preferManual }).data =
      some (FallbackService.convertManualInputToScrapedData m) ∧
    (BusinessDataService.getBusinessData env attempts
      { url := some url, manualInput := some m, preferManual := preferManual }).source =
      "manual" ∧
    (BusinessDataService.getBusinessData env attempts
      { url := some url, manualInput := some m, preferManual := preferManual
        }).requiresManualInput = false ∧
    (∃ rest, (BusinessDataService.getBusinessData env attempts
      { url := some url, manualInput := some m, preferManual := preferManual }).suggestions =
      some ("Website scraping failed, using manual input" :: rest)) := by
  rw [getBusinessDataCombined env attempts url m preferManual hurl hpm,
    combinedScrapeFailEq env attempts url m hvalid hfail]
  exact ⟨rfl, rfl, rfl, rfl, _, rfl⟩

/-- Claim C9 witness: a concrete combined request whose scrape attempt
    reports failure falls back to the converted manual input with the
    explanatory suggestion. -/
theorem C9_combined_scrape_failure_witness :
    (BusinessDataService.getBusinessData ⟨fun _ => some "http:", fun _ => some "x.com"⟩
      (fun _ => .ok { success := false })
      { url := some "http://x.com",
        manualInput := some { businessName := "Acme", description := "" },
        preferManual := none }).success = true ∧
    (BusinessDataService.getBusinessData ⟨fun _ => some "http:", fun _ => some "x.com"⟩
      (fun _ => .ok { success := false })
      { url := some "http://x.com",
        manualInput := some { businessName := "Acme", description := "" },
        preferManual := none }).data =
      some (FallbackService.convertManualInputToScrapedData
        { businessName := "Acme", description := "" }) ∧
    (∃ rest, (BusinessDataService.getBusinessData
      ⟨fun _ => some "http:", fun _ => some "x.com"⟩
      (fun _ => .ok { success := false })
      { url := some "http://x.com",
        manualInput := some { businessName := "Acme", description := "" },
        preferManual := none }).suggestions =
      some ("Website scraping failed, using manual input" :: rest)) := by
  obtain ⟨h1, h2, h3, h4, h5⟩ :=
    C9_combined_scrape_failure ⟨fun _ => some "http:", fun _ => some "x.com"⟩
      (fun _ => .ok { success := false }) "http://x.com"
      { businessName := "Acme", description := "" } none
      (by decide) (by decide) (by decide) (by decide)
  exact ⟨h1, h2, h5⟩

/-- Claim C10: every success result from the manual-only path, and from
    the combined path when scraping fails, reports quality score exactly 1
    with an empty issues list, for every valid manual input however
    incomplete; the weighted scoring function is bypassed (it would give a
    name-only manual input strictly less than 1). -/
theorem C10_manual_quality_one :
    (∀ (env : JsEnv) (attempts : Nat → Except String ScrapingResult)
        (request : BusinessDataRequest) (m : ManualBusinessInput),
      request.manualInput = some m →
      (FallbackService.validateManualInput env m).valid = true →
      (request.preferManual = some true ∨ request.url = none ∨ request.url = some "" →
        (BusinessDataService.getBusinessData env attempts request).success = true ∧
        (BusinessDataService.getBusinessData env attempts request).quality =
          some { score := 1.0, issues := [] }) ∧
      (∀ url, request.url = some url → url ≠ "" → request.preferManual ≠ some true →
        (WebScraperService.scrapeWebsite env attempts url 2).1.success = false →
        (BusinessDataService.getBusinessData env attempts request).success = true ∧
        (BusinessDataService.getBusinessData env attempts request).quality =
          some { score := 1.0, issues := [] })) ∧
    (BusinessDataService.assessDataQuality
      (FallbackService.convertManualInputToScrapedData
        { businessName := "Acme", description := "" })).score < 1 := by
  constructor
  · intro env attempts request m hm hvalid
    constructor
    · intro hb
      unfold BusinessDataService.getBusinessData
      rw [if_pos hb]
      unfold BusinessDataService.handleManualInput
      rw [hm]
      simp only [hvalid, Bool.not_true, Bool.false_eq_true, if_false]
      exact ⟨trivial, trivial⟩
    · intro url hurl hne hpm hfail
      obtain ⟨u, mi, pm⟩ := request
      simp only at hm hurl hpm
      subst hm hurl
      rw [getBusinessDataCombined env attempts url m pm hne hpm,
        combinedScrapeFailEq env attempts url m hvalid hfail]
      exact ⟨rfl, rfl⟩
  · norm_num +decide [BusinessDataService.assessDataQuality,
      FallbackService.convertManualInputToScrapedData, jsTrim]

/-- Claim C10 witness: a description-free manual input yields quality 1
    with no issues on the manual-only path and on the combined path with a
    failing scrape. -/
theorem C10_manual_quality_one_witness :
    (BusinessDataService.getBusinessData ⟨fun _ => none, fun _ => none⟩
      (fun _ => .ok { success := false })
      { url := none,
        manualInput := some { businessName := "Acme", description := "" } }).quality =
      some { score := 1.0, issues := [] } ∧
    (BusinessDataService.getBusinessData ⟨fun _ => some "http:", fun _ => some "x.com"⟩
      (fun _ => .ok { success := false })
      { url := some "http://x.com",
        manualInput := some { businessName := "Acme", description := "" },
        preferManual := none }).quality =
      some { score := 1.0, issues := [] } := by
  constructor
  · exact ((C10_manual_quality_one.1 ⟨fun _ => none, fun _ => none⟩
      (fun _ => .ok { success := false })
      { url := none, manualInput := some { businessName := "Acme", description := "" } }
      { businessName := "Acme", description := "" } rfl (by decide)).1
      (Or.inr (Or.inl rfl))).2
  · exact ((C10_manual_quality_one.1 ⟨fun _ => some "http:", fun _ => some "x.com"⟩
      (fun _ => .ok { success := false })
      { url := some "http://x.com",
        manualInput := some { businessName := "Acme", description := "" },
        preferManual := none }
      { businessName := "Acme", description := "" } rfl (by decide)).2
      "http://x.com" rfl (by decide) (by decide) (by decide)).2
